import Mathlib

/-
  Verification of the feature-extraction and cascade pipeline of
  `emotion_gui.py` (senior-male emotion detector).

  The embedding follows the source file closely:
  * matrices (numpy 2-D arrays) are lists of rows, `Mat`;
  * the librosa calls (`librosa.load`, `librosa.feature.mfcc`,
    `librosa.feature.melspectrogram`) are external library calls whose
    outcome for the file at hand enters as a parameter: `none` models a
    raised exception caught by the surrounding try block, `some M` the
    returned matrix;
  * `np.log10` enters `power_to_db` as a function parameter `log10`; the
    theorems about decibel values instantiate it with `Real.logb 10`;
  * machine floats are idealised as elements of a linear ordered field
    (rationals for the decidable pipeline claims, reals for the decibel
    claims).
-/

/-- A numpy 2-D array as a list of rows. -/
abbrev Mat (α : Type) : Type := List (List α)

/-- A numpy 3-D array (rows of rows of innermost vectors). -/
abbrev Mat3 (α : Type) : Type := List (List (List α))

/-- Models `M.shape[1]` of a rectangular 2-D array: the length of the first
row (0 for the empty list of rows). -/
def shape1 {α : Type} (M : Mat α) : ℕ :=
  match M with
  | [] => 0
  | r :: _ => r.length

/-- Models `np.max` on a flattened nonempty array: the greatest element of the
list.  numpy raises on an empty array; here the empty case returns the junk
value 0 and every use is guarded by nonemptiness. -/
def np_max {α : Type} [LinearOrderedField α] : List α → α
  | [] => 0
  | [x] => x
  | x :: y :: t => max x (np_max (y :: t))

/-- Accumulator loop for `np_argmax`: `best` is the greatest value seen so
far, `bi` its index, `i` the index of the head of the remaining list.  A
strictly greater element replaces the current best, so ties keep the first
occurrence, exactly as `np.argmax` does. -/
def np_argmax_go {α : Type} [LinearOrderedField α] (best : α) (bi i : ℕ) : List α → ℕ
  | [] => bi
  | x :: xs => if best < x then np_argmax_go x i (i + 1) xs else np_argmax_go best bi (i + 1) xs

/-- Models `np.argmax` on a flattened array: index of the first occurrence of
the greatest element.  numpy raises on an empty array; here the empty case
returns the junk value 0 and every use is applied to classifier outputs. -/
def np_argmax {α : Type} [LinearOrderedField α] : List α → ℕ
  | [] => 0
  | x :: xs => np_argmax_go x 0 1 xs

/-- Elementwise map over a 2-D array. -/
def matMap {α : Type} (f : α → α) (M : Mat α) : Mat α :=
  M.map (fun r => r.map f)

/-- Models `np.abs(S)` (the `magnitude` array of `librosa.power_to_db`). -/
def matAbs {α : Type} [LinearOrderedField α] (M : Mat α) : Mat α :=
  matMap (fun x => |x|) M

/-- Models `np.max` over all entries of a 2-D array. -/
def matMax {α : Type} [LinearOrderedField α] (M : Mat α) : α :=
  np_max M.flatten

/-- Models `np.max` over all entries of a 3-D array. -/
def mat3Max {α : Type} [LinearOrderedField α] (T : Mat3 α) : α :=
  np_max T.flatten.flatten

/-- The `amin` default argument of `librosa.power_to_db`: `1e-10`. -/
def np_amin {α : Type} [LinearOrderedField α] : α := 1 / 10 ^ 10

/-- One entry of the `log_spec` array of `librosa.power_to_db` before the
`top_db` clamp: `10*log10(maximum(amin, x)) - 10*log10(maximum(amin, ref_value))`. -/
def db_entry {α : Type} [LinearOrderedField α] (log10 : α → α) (ref_value x : α) : α :=
  10 * log10 (max np_amin x) - 10 * log10 (max np_amin ref_value)

/-- The `top_db` clamp of `librosa.power_to_db` with the default
`top_db = 80`: `np.maximum(log_spec, log_spec.max() - top_db)`. -/
def clampTop {α : Type} [LinearOrderedField α] (M : Mat α) : Mat α :=
  matMap (fun x => max x (matMax M - 80)) M

/-- Models `librosa.power_to_db(S, ref=np.max)` as called on line 38 of
`emotion_gui.py`, with the library defaults `amin=1e-10`, `top_db=80`:
`ref_value` is the maximum of the magnitude array, `log_spec` is built
entrywise by `db_entry`, and the result is clamped from below at
`log_spec.max() - 80`.  `np.log10` is the parameter `log10`. -/
def power_to_db {α : Type} [LinearOrderedField α] (log10 : α → α) (S : Mat α) : Mat α :=
  clampTop (matMap (db_entry log10 (matMax (matAbs S))) (matAbs S))

/-- The shared pad-or-truncate step of lines 23-27 and 39-43 of
`emotion_gui.py`: if the array has fewer than `max_len` columns, pad every
row at the right with zeros up to `max_len` (`np.pad` with
`((0,0),(0,pad_width))` and `mode=constant`); otherwise keep the first
`max_len` columns (`M[:, :max_len]`). -/
def pad_or_truncate {α : Type} [LinearOrderedField α] (max_len : ℕ) (M : Mat α) : Mat α :=
  if shape1 M < max_len then
    M.map (fun r => r ++ List.replicate (max_len - shape1 M) 0)
  else
    M.map (fun r => r.take max_len)

/-- Models numpy transposition `M.T` of a rectangular 2-D array: row `j` of
the result is column `j` of `M`. -/
def np_transpose {α : Type} [LinearOrderedField α] (M : Mat α) : Mat α :=
  (List.range (shape1 M)).map (fun j => M.map (fun r => r.getD j 0))

/-- Models `M[..., np.newaxis]` on line 44 of `emotion_gui.py`: wrap every
entry in a singleton innermost axis. -/
def addChannel {α : Type} (M : Mat α) : Mat3 α :=
  M.map (fun r => r.map (fun x => [x]))

/-- Embeds `extract_mfcc_sequence` (lines 18-31 of `emotion_gui.py`).
`mfccRaw` is the combined outcome of the external calls
`librosa.load(file_path, sr=22050)` and `librosa.feature.mfcc(y, sr, n_mfcc=13)`
for the given file: `none` when they raise (the except branch returns
`None`), `some M` the 13-row mfcc matrix otherwise.  On success the matrix
is padded or truncated to 160 columns and transposed. -/
def extract_mfcc_sequence {α : Type} [LinearOrderedField α]
    (mfccRaw : Option (Mat α)) (max_len : ℕ) : Option (Mat α) :=
  match mfccRaw with
  | none => none
  | some mfcc => some (np_transpose (pad_or_truncate max_len mfcc))

/-- Embeds `extract_mel_features` (lines 33-48 of `emotion_gui.py`).
`melRaw` is the combined outcome of the external calls
`librosa.load(file_path, sr=22050)` and
`librosa.feature.melspectrogram(y, sr, n_mels=128)`: `none` when they raise,
`some M` the 128-row mel power matrix otherwise.  On success the matrix is
converted to decibels by `power_to_db`, padded or truncated to 160 columns,
and given a trailing singleton channel axis. -/
def extract_mel_features {α : Type} [LinearOrderedField α]
    (log10 : α → α) (melRaw : Option (Mat α)) (max_len : ℕ) : Option (Mat3 α) :=
  match melRaw with
  | none => none
  | some mel => some (addChannel (pad_or_truncate max_len (power_to_db log10 mel)))

/-- Instrumentation counters for one invocation of the pipeline: how many
times the mfcc extraction, the mel (spectrogram) extraction and the emotion
classifier were invoked. -/
structure Calls where
  mfcc : ℕ
  mel : ℕ
  emotion : ℕ
deriving DecidableEq, Repr

/-- The external collaborators of one `analyze_audio(file_path)` invocation.
The source reads the file twice, once per feature extractor; the two
independent `librosa.load` outcomes therefore enter as the two separate
fields `mfccRaw` (the mfcc matrix of the first load, lines 21-22) and
`melRaw` (the mel power matrix of the second load, lines 36-37).  The three
keras models appear through their `predict` functions on the batch tensors
the source builds with `np.expand_dims`; `Except.error e` models a raised
exception with text `e`, caught by the outer try of `analyze_audio`.
`inverse_transform` models `emotion_encoder.inverse_transform([i])[0]`. -/
structure Env (α : Type) where
  mfccRaw : Option (Mat α)
  melRaw : Option (Mat α)
  log10 : α → α
  gender_predict : List (Mat α) → Except String (List α)
  age_predict : List (Mat α) → Except String (List α)
  emotion_predict : List (Mat3 α) → Except String (List α)
  inverse_transform : ℕ → Except String String

/-- Step 3 of `analyze_audio` (lines 72-81): extract the mel features from
the second load of the file, run the emotion model, map the arg-max index
through the label encoder.  The `Calls` component records that the mel
extraction has been invoked once, and whether the emotion model ran. -/
def emotion_stage_result {α : Type} [LinearOrderedField α] (env : Env α) : String × Calls :=
  match extract_mel_features env.log10 env.melRaw 160 with
  | none => ("❌ Error: Could not extract Mel features.", ⟨1, 1, 0⟩)
  | some mel_feat =>
    match env.emotion_predict [mel_feat] with
    | Except.error e => ("❌ Error: " ++ e, ⟨1, 1, 1⟩)
    | Except.ok emotion_pred =>
      match env.inverse_transform (np_argmax emotion_pred) with
      | Except.error e => ("❌ Error: " ++ e, ⟨1, 1, 1⟩)
      | Except.ok emotion_label => ("✅ Detected Emotion: " ++ emotion_label, ⟨1, 1, 1⟩)

/-- Step 2 of `analyze_audio` (lines 65-70): run the age model on the very
tensor `X_mfcc` the gender stage used; arg-max index 1 means senior, any
other index returns the rejection string, a senior decision continues with
the emotion stage. -/
def age_stage_result {α : Type} [LinearOrderedField α]
    (env : Env α) (X_mfcc : List (Mat α)) : String × Calls :=
  match env.age_predict X_mfcc with
  | Except.error e => ("❌ Error: " ++ e, ⟨1, 0, 0⟩)
  | Except.ok age_pred =>
    if ¬ (np_argmax age_pred = 1) then
      ("🚫 Rejected: Not a senior (under 60).", ⟨1, 0, 0⟩)
    else
      emotion_stage_result env

/-- Embeds `analyze_audio` (lines 51-85) together with the invocation
counters: extract the mfcc sequence (always exactly one attempt), return the
fixed error string when it failed, otherwise run the gender model on the
batch tensor `[mfcc_seq]` (`np.expand_dims(mfcc_seq, axis=0)`); arg-max
index 1 maps to the string `male`, anything else to `female`; a female
decision returns the rejection string, a male decision continues with the
age stage on the same tensor.  Raised exceptions of the model calls are
caught by the outer try and rendered as error strings. -/
def analyze_audio_traced {α : Type} [LinearOrderedField α] (env : Env α) : String × Calls :=
  match extract_mfcc_sequence env.mfccRaw 160 with
  | none => ("❌ Error: Could not extract MFCC sequence.", ⟨1, 0, 0⟩)
  | some mfcc_seq =>
    match env.gender_predict [mfcc_seq] with
    | Except.error e => ("❌ Error: " ++ e, ⟨1, 0, 0⟩)
    | Except.ok gender_pred =>
      if (if np_argmax gender_pred = 1 then "male" else "female") = "female" then
        ("🚫 Rejected: Female voice detected.", ⟨1, 0, 0⟩)
      else
        age_stage_result env [mfcc_seq]

/-- The result string of one `analyze_audio` invocation. -/
def analyze_audio {α : Type} [LinearOrderedField α] (env : Env α) : String :=
  (analyze_audio_traced env).1

section Helpers

variable {α : Type} [LinearOrderedField α]

theorem np_max_cons (x : α) (l : List α) (h : l ≠ []) :
    np_max (x :: l) = max x (np_max l) := by
  cases l with
  | nil => exact absurd rfl h
  | cons y t => rfl

theorem np_max_mem (l : List α) (h : l ≠ []) : np_max l ∈ l := by
  induction l with
  | nil => exact absurd rfl h
  | cons x t ih =>
    cases t with
    | nil => simp [np_max]
    | cons y s =>
      rw [np_max_cons x (y :: s) (by simp)]
      rcases max_choice x (np_max (y :: s)) with h1 | h1
      · rw [h1]; exact List.mem_cons_self _ _
      · rw [h1]; exact List.mem_cons_of_mem _ (ih (by simp))

theorem le_np_max_of_mem {a : α} {l : List α} (h : a ∈ l) : a ≤ np_max l := by
  induction l with
  | nil => simp at h
  | cons x t ih =>
    cases t with
    | nil => simp at h; simp [np_max, h]
    | cons y s =>
      rw [np_max_cons x (y :: s) (by simp)]
      rcases List.mem_cons.mp h with h1 | h1
      · exact h1 ▸ le_max_left _ _
      · exact le_trans (ih h1) (le_max_right _ _)

theorem np_max_eq_of_mem_of_le {a : α} {l : List α}
    (hmem : a ∈ l) (hle : ∀ x ∈ l, x ≤ a) : np_max l = a :=
  le_antisymm (hle _ (np_max_mem l (List.ne_nil_of_mem hmem))) (le_np_max_of_mem hmem)

end Helpers

section ListHelpers

variable {α : Type}

theorem getD_append_lt (l₁ l₂ : List α) (d : α) (j : ℕ) (h : j < l₁.length) :
    (l₁ ++ l₂).getD j d = l₁.getD j d := by
  induction l₁ generalizing j with
  | nil => simp at h
  | cons x t ih =>
    cases j with
    | zero => rfl
    | succ n => simpa using ih n (by simpa using h)

theorem getD_append_ge (l₁ l₂ : List α) (d : α) (j : ℕ) (h : l₁.length ≤ j) :
    (l₁ ++ l₂).getD j d = l₂.getD (j - l₁.length) d := by
  induction l₁ generalizing j with
  | nil => simp
  | cons x t ih =>
    cases j with
    | zero => simp at h
    | succ n => simpa using ih n (by simpa using h)

theorem getD_take_lt (l : List α) (d : α) (n j : ℕ) (h : j < n) :
    (l.take n).getD j d = l.getD j d := by
  induction l generalizing n j with
  | nil => simp
  | cons x t ih =>
    cases n with
    | zero => simp at h
    | succ m =>
      cases j with
      | zero => rfl
      | succ k => simpa using ih m k (by omega)

theorem getD_replicate (a d : α) (n j : ℕ) (h : j < n) :
    (List.replicate n a).getD j d = a := by
  induction n generalizing j with
  | zero => simp at h
  | succ m ih =>
    cases j with
    | zero => rfl
    | succ k => simpa [List.replicate_succ] using ih k (by omega)

theorem getD_map_range {β : Type} (f : ℕ → β) (d : β) (n j : ℕ) (h : j < n) :
    ((List.range n).map f).getD j d = f j := by
  rw [List.getD_eq_getElem?_getD, List.getElem?_map, List.getElem?_range h]
  rfl

theorem map_const_eq_replicate {β : Type} (l : List α) (b : β) :
    l.map (fun _ => b) = List.replicate l.length b := by
  induction l with
  | nil => rfl
  | cons x t ih => simp [List.replicate_succ, ih]

theorem flatten_map_singleton (l : List α) :
    (l.map (fun x => [x])).flatten = l := by
  induction l with
  | nil => rfl
  | cons x t ih => simp [ih]

end ListHelpers

section PipelineEquations

variable {α : Type} [LinearOrderedField α]

theorem traced_of_mfcc_none (env : Env α)
    (h : extract_mfcc_sequence env.mfccRaw 160 = none) :
    analyze_audio_traced env = ("❌ Error: Could not extract MFCC sequence.", ⟨1, 0, 0⟩) := by
  unfold analyze_audio_traced
  rw [h]

theorem traced_of_gender_error (env : Env α) (X : Mat α) (e : String)
    (hX : extract_mfcc_sequence env.mfccRaw 160 = some X)
    (he : env.gender_predict [X] = Except.error e) :
    analyze_audio_traced env = ("❌ Error: " ++ e, ⟨1, 0, 0⟩) := by
  unfold analyze_audio_traced
  simp only [hX, he]

theorem traced_of_female (env : Env α) (X : Mat α) (p : List α)
    (hX : extract_mfcc_sequence env.mfccRaw 160 = some X)
    (hp : env.gender_predict [X] = Except.ok p)
    (h1 : np_argmax p ≠ 1) :
    analyze_audio_traced env = ("🚫 Rejected: Female voice detected.", ⟨1, 0, 0⟩) := by
  unfold analyze_audio_traced
  simp only [hX, hp, if_neg h1]
  simp

theorem traced_of_male (env : Env α) (X : Mat α) (p : List α)
    (hX : extract_mfcc_sequence env.mfccRaw 160 = some X)
    (hp : env.gender_predict [X] = Except.ok p)
    (h1 : np_argmax p = 1) :
    analyze_audio_traced env = age_stage_result env [X] := by
  unfold analyze_audio_traced
  simp only [hX, hp, if_pos h1]
  rw [if_neg (by decide : ¬ ("male" : String) = "female")]

theorem age_stage_of_error (env : Env α) (X_mfcc : List (Mat α)) (e : String)
    (he : env.age_predict X_mfcc = Except.error e) :
    age_stage_result env X_mfcc = ("❌ Error: " ++ e, ⟨1, 0, 0⟩) := by
  unfold age_stage_result
  rw [he]

theorem age_stage_of_not_senior (env : Env α) (X_mfcc : List (Mat α)) (q : List α)
    (hq : env.age_predict X_mfcc = Except.ok q)
    (h1 : np_argmax q ≠ 1) :
    age_stage_result env X_mfcc = ("🚫 Rejected: Not a senior (under 60).", ⟨1, 0, 0⟩) := by
  unfold age_stage_result
  rw [hq]
  simp only [if_pos h1]

theorem age_stage_of_senior (env : Env α) (X_mfcc : List (Mat α)) (q : List α)
    (hq : env.age_predict X_mfcc = Except.ok q)
    (h1 : np_argmax q = 1) :
    age_stage_result env X_mfcc = emotion_stage_result env := by
  unfold age_stage_result
  rw [hq]
  simp [h1]

theorem emotion_stage_of_mel_none (env : Env α)
    (h : extract_mel_features env.log10 env.melRaw 160 = none) :
    emotion_stage_result env = ("❌ Error: Could not extract Mel features.", ⟨1, 1, 0⟩) := by
  unfold emotion_stage_result
  rw [h]

theorem emotion_stage_of_predict_error (env : Env α) (T : Mat3 α) (e : String)
    (hT : extract_mel_features env.log10 env.melRaw 160 = some T)
    (he : env.emotion_predict [T] = Except.error e) :
    emotion_stage_result env = ("❌ Error: " ++ e, ⟨1, 1, 1⟩) := by
  unfold emotion_stage_result
  simp only [hT, he]

theorem emotion_stage_of_label_error (env : Env α) (T : Mat3 α) (p : List α) (e : String)
    (hT : extract_mel_features env.log10 env.melRaw 160 = some T)
    (hp : env.emotion_predict [T] = Except.ok p)
    (he : env.inverse_transform (np_argmax p) = Except.error e) :
    emotion_stage_result env = ("❌ Error: " ++ e, ⟨1, 1, 1⟩) := by
  unfold emotion_stage_result
  simp only [hT, hp, he]

theorem emotion_stage_of_label_ok (env : Env α) (T : Mat3 α) (p : List α) (label : String)
    (hT : extract_mel_features env.log10 env.melRaw 160 = some T)
    (hp : env.emotion_predict [T] = Except.ok p)
    (hl : env.inverse_transform (np_argmax p) = Except.ok label) :
    emotion_stage_result env = ("✅ Detected Emotion: " ++ label, ⟨1, 1, 1⟩) := by
  unfold emotion_stage_result
  simp only [hT, hp, hl]

end PipelineEquations

section ShapeHelpers

variable {α : Type} [LinearOrderedField α]

theorem shape1_pad_or_truncate (M : Mat α) (hM : M ≠ []) (n : ℕ) :
    shape1 (pad_or_truncate n M) = n := by
  obtain ⟨r, t, rfl⟩ := List.exists_cons_of_ne_nil hM
  unfold pad_or_truncate
  split
  · next h =>
    simp only [shape1, List.map_cons, List.length_append, List.length_replicate] at h ⊢
    omega
  · next h =>
    simp only [shape1, List.map_cons, List.length_take] at h ⊢
    omega

theorem length_np_transpose (M : Mat α) : (np_transpose M).length = shape1 M := by
  simp [np_transpose]

theorem np_transpose_getD (M : Mat α) (j : ℕ) (h : j < shape1 M) :
    (np_transpose M).getD j [] = M.map (fun r => r.getD j 0) := by
  unfold np_transpose
  exact getD_map_range _ _ _ _ h

end ShapeHelpers

/-- C1: for every signal whose decode and mfcc computation succeed with a
13-row rectangular mfcc matrix, `extract_mfcc_sequence` with `max_len = 160`
returns a time-major matrix whose time dimension is exactly 160: every
frame `j` below both the analysis frame count and 160 is column `j` of the
mfcc matrix (so when more than 160 frames exist only the first 160 are
retained), and when fewer than 160 frames exist every trailing frame is
exactly the zero vector. -/
theorem mfcc_sequence_time_dim {α : Type} [LinearOrderedField α] (M : Mat α)
    (h13 : M.length = 13) (hrect : ∀ r ∈ M, r.length = shape1 M) :
    ∃ res, extract_mfcc_sequence (some M) 160 = some res ∧
      res.length = 160 ∧
      (∀ j, j < min (shape1 M) 160 → res.getD j [] = M.map (fun r => r.getD j 0)) ∧
      (∀ j, shape1 M ≤ j → j < 160 → res.getD j [] = List.replicate 13 (0 : α)) := by
  have hM : M ≠ [] := by
    intro h
    rw [h] at h13
    simp at h13
  have hP : shape1 (pad_or_truncate 160 M) = 160 := shape1_pad_or_truncate M hM 160
  refine ⟨np_transpose (pad_or_truncate 160 M), rfl, ?_, ?_, ?_⟩
  · rw [length_np_transpose, hP]
  · intro j hj
    rw [lt_min_iff] at hj
    rw [np_transpose_getD _ _ (by rw [hP]; exact hj.2)]
    unfold pad_or_truncate
    split
    · rw [List.map_map]
      refine List.map_congr_left ?_
      intro r hr
      simp only [Function.comp_apply]
      exact getD_append_lt r _ 0 j (by rw [hrect r hr]; exact hj.1)
    · rw [List.map_map]
      refine List.map_congr_left ?_
      intro r hr
      simp only [Function.comp_apply]
      exact getD_take_lt r 0 160 j hj.2
  · intro j hj1 hj2
    rw [np_transpose_getD _ _ (by rw [hP]; exact hj2)]
    unfold pad_or_truncate
    split
    · next h =>
      rw [List.map_map]
      have hz : ∀ r ∈ M,
          ((fun r => r.getD j 0) ∘ fun r => r ++ List.replicate (160 - shape1 M) 0) r
            = (fun _ => (0 : α)) r := by
        intro r hr
        simp only [Function.comp_apply]
        rw [getD_append_ge _ _ _ _ (by rw [hrect r hr]; exact hj1)]
        exact getD_replicate _ _ _ _ (by rw [hrect r hr]; omega)
      rw [List.map_congr_left hz, map_const_eq_replicate M (0 : α), h13]
    · next h => omega

/-- Witness for C1 at the concrete 13-row, 1-frame mfcc matrix of all ones. -/
theorem mfcc_sequence_time_dim_witness :
    ((List.replicate 13 [(1 : ℚ)]).length = 13 ∧
      (∀ r ∈ List.replicate 13 [(1 : ℚ)], r.length = shape1 (List.replicate 13 [(1 : ℚ)]))) ∧
    (∃ res, extract_mfcc_sequence (some (List.replicate 13 [(1 : ℚ)])) 160 = some res ∧
      res.length = 160 ∧
      (∀ j, j < min (shape1 (List.replicate 13 [(1 : ℚ)])) 160 →
        res.getD j [] = (List.replicate 13 [(1 : ℚ)]).map (fun r => r.getD j 0)) ∧
      (∀ j, shape1 (List.replicate 13 [(1 : ℚ)]) ≤ j → j < 160 →
        res.getD j [] = List.replicate 13 (0 : ℚ))) :=
  ⟨⟨by decide, by decide⟩,
    mfcc_sequence_time_dim (List.replicate 13 [(1 : ℚ)]) (by decide) (by decide)⟩

section MatShapeHelpers

variable {α : Type} [LinearOrderedField α]

theorem length_matMap (f : α → α) (M : Mat α) : (matMap f M).length = M.length := by
  simp [matMap]

theorem shape1_matMap (f : α → α) (M : Mat α) : shape1 (matMap f M) = shape1 M := by
  cases M with
  | nil => rfl
  | cons r t => simp [matMap, shape1]

theorem rect_matMap (f : α → α) (M : Mat α) (hrect : ∀ r ∈ M, r.length = shape1 M) :
    ∀ r ∈ matMap f M, r.length = shape1 M := by
  intro r hr
  obtain ⟨s, hs, rfl⟩ := List.mem_map.mp hr
  simpa using hrect s hs

theorem length_power_to_db (log10 : α → α) (M : Mat α) :
    (power_to_db log10 M).length = M.length := by
  simp [power_to_db, clampTop, matAbs, length_matMap]

theorem shape1_power_to_db (log10 : α → α) (M : Mat α) :
    shape1 (power_to_db log10 M) = shape1 M := by
  simp [power_to_db, clampTop, matAbs, shape1_matMap]

theorem rect_power_to_db (log10 : α → α) (M : Mat α)
    (hrect : ∀ r ∈ M, r.length = shape1 M) :
    ∀ r ∈ power_to_db log10 M, r.length = shape1 (power_to_db log10 M) := by
  rw [shape1_power_to_db]
  intro r hr
  simp only [power_to_db, clampTop, matAbs, matMap] at hr
  obtain ⟨s1, hs1, rfl⟩ := List.mem_map.mp hr
  obtain ⟨s2, hs2, rfl⟩ := List.mem_map.mp hs1
  obtain ⟨s3, hs3, rfl⟩ := List.mem_map.mp hs2
  simp [hrect s3 hs3]

theorem length_pad_or_truncate (n : ℕ) (M : Mat α) :
    (pad_or_truncate n M).length = M.length := by
  unfold pad_or_truncate
  split <;> simp

theorem rect_pad_or_truncate (n : ℕ) (M : Mat α)
    (hrect : ∀ r ∈ M, r.length = shape1 M) :
    ∀ r ∈ pad_or_truncate n M, r.length = n := by
  intro r hr
  unfold pad_or_truncate at hr
  split at hr
  · next h =>
    obtain ⟨s, hs, rfl⟩ := List.mem_map.mp hr
    simp only [List.length_append, List.length_replicate, hrect s hs]
    omega
  · next h =>
    obtain ⟨s, hs, rfl⟩ := List.mem_map.mp hr
    simp only [List.length_take, hrect s hs]
    omega

end MatShapeHelpers

theorem mel_features_shape_aux {α : Type} [LinearOrderedField α] (log10 : α → α) (M : Mat α)
    (h128 : M.length = 128) (hrect : ∀ r ∈ M, r.length = shape1 M) :
    ∃ res, extract_mel_features log10 (some M) 160 = some res ∧
      res = addChannel (pad_or_truncate 160 (power_to_db log10 M)) ∧
      res.length = 128 ∧
      (∀ r ∈ res, r.length = 160) ∧
      (∀ r ∈ res, ∀ c ∈ r, c.length = 1) := by
  refine ⟨addChannel (pad_or_truncate 160 (power_to_db log10 M)), rfl, rfl, ?_, ?_, ?_⟩
  · simp [addChannel, length_pad_or_truncate, length_power_to_db, h128]
  · intro r hr
    obtain ⟨s, hs, rfl⟩ := List.mem_map.mp hr
    rw [List.length_map]
    exact rect_pad_or_truncate 160 _ (rect_power_to_db log10 M hrect) s hs
  · intro r hr c hc
    obtain ⟨s, hs, rfl⟩ := List.mem_map.mp hr
    obtain ⟨x, hx, rfl⟩ := List.mem_map.mp hc
    rfl

set_option maxRecDepth 40000 in
/-- C2: for every signal whose decode and mel-spectrogram computation succeed
with a 128-band rectangular mel power matrix, `extract_mel_features` with
`max_len = 160` returns exactly the tensor obtained by converting the mel
power matrix to decibels, padding or truncating the time axis to 160 frames,
and appending a trailing singleton channel axis, and that tensor has shape
(128, 160, 1). -/
theorem mel_features_shape {α : Type} [LinearOrderedField α] (log10 : α → α) (M : Mat α)
    (h128 : M.length = 128) (hrect : ∀ r ∈ M, r.length = shape1 M) :
    ∃ res, extract_mel_features log10 (some M) 160 = some res ∧
      res = addChannel (pad_or_truncate 160 (power_to_db log10 M)) ∧
      res.length = 128 ∧
      (∀ r ∈ res, r.length = 160) ∧
      (∀ r ∈ res, ∀ c ∈ r, c.length = 1) :=
  mel_features_shape_aux log10 M h128 hrect

set_option maxRecDepth 40000 in
/-- Witness for C2 at the concrete 128-band, 1-frame mel power matrix of all
ones, with the identity standing in for log10 (the shape facts hold for any
log10 function). -/
theorem mel_features_shape_witness :
    ((List.replicate 128 [(1 : ℚ)]).length = 128 ∧
      (∀ r ∈ List.replicate 128 [(1 : ℚ)], r.length = shape1 (List.replicate 128 [(1 : ℚ)]))) ∧
    (∃ res, extract_mel_features id (some (List.replicate 128 [(1 : ℚ)])) 160 = some res ∧
      res = addChannel (pad_or_truncate 160 (power_to_db id (List.replicate 128 [(1 : ℚ)]))) ∧
      res.length = 128 ∧
      (∀ r ∈ res, r.length = 160) ∧
      (∀ r ∈ res, ∀ c ∈ r, c.length = 1)) :=
  ⟨⟨by decide, by decide⟩,
    mel_features_shape id (List.replicate 128 [(1 : ℚ)]) (by decide) (by decide)⟩

theorem mem_np_transpose_length {α : Type} [LinearOrderedField α] (M : Mat α)
    (r : List α) (hr : r ∈ np_transpose M) : r.length = M.length := by
  unfold np_transpose at hr
  obtain ⟨j, hj, rfl⟩ := List.mem_map.mp hr
  simp

/-- C9: each feature extractor is all-or-nothing: a failed library call
yields `none` (which `analyze_audio` renders as the corresponding error
string, never as a rejection string), and a successful one yields the full
(160, 13) coefficient matrix, respectively the full (128, 160, 1)
spectrogram tensor; additionally a mel extraction failure reached after both
gates pass yields exactly the mel error string. -/
theorem features_all_or_nothing {α : Type} [LinearOrderedField α] (log10 : α → α)
    (M13 M128 : Mat α) (h13 : M13.length = 13) (h128 : M128.length = 128)
    (hrect : ∀ r ∈ M128, r.length = shape1 M128) (env : Env α) :
    extract_mfcc_sequence (none : Option (Mat α)) 160 = none ∧
    (∃ res, extract_mfcc_sequence (some M13) 160 = some res ∧
      res.length = 160 ∧ (∀ r ∈ res, r.length = 13)) ∧
    extract_mel_features log10 (none : Option (Mat α)) 160 = none ∧
    (∃ t, extract_mel_features log10 (some M128) 160 = some t ∧
      t.length = 128 ∧ (∀ r ∈ t, r.length = 160) ∧ (∀ r ∈ t, ∀ c ∈ r, c.length = 1)) ∧
    (env.mfccRaw = none → analyze_audio env = "❌ Error: Could not extract MFCC sequence.") ∧
    (∀ X p q, extract_mfcc_sequence env.mfccRaw 160 = some X →
      env.gender_predict [X] = Except.ok p → np_argmax p = 1 →
      env.age_predict [X] = Except.ok q → np_argmax q = 1 →
      env.melRaw = none →
      analyze_audio env = "❌ Error: Could not extract Mel features.") := by
  have hM13 : M13 ≠ [] := by
    intro h
    rw [h] at h13
    simp at h13
  refine ⟨rfl, ?_, rfl, ?_, ?_, ?_⟩
  · refine ⟨np_transpose (pad_or_truncate 160 M13), rfl, ?_, ?_⟩
    · rw [length_np_transpose, shape1_pad_or_truncate M13 hM13 160]
    · intro r hr
      rw [mem_np_transpose_length _ r hr, length_pad_or_truncate, h13]
  · obtain ⟨t, ht, _, h2, h3, h4⟩ := mel_features_shape_aux log10 M128 h128 hrect
    exact ⟨t, ht, h2, h3, h4⟩
  · intro h
    have := traced_of_mfcc_none env (by rw [h]; rfl)
    unfold analyze_audio
    rw [this]
  · intro X p q hX hp hp1 hq hq1 hmel
    unfold analyze_audio
    rw [traced_of_male env X p hX hp hp1, age_stage_of_senior env [X] q hq hq1,
      emotion_stage_of_mel_none env (by rw [hmel]; rfl)]

/-- The concrete mfcc outcome used by the pipeline witnesses: one analysis
frame with a single coefficient of value 1, as left by the first load. -/
def rawM : Mat ℚ := [[1]]

/-- The coefficient tensor the pipeline builds from `rawM`. -/
def seqM : Mat ℚ := np_transpose (pad_or_truncate 160 rawM)

/-- Environment in which every model answers class 1 and the emotion model
answers class 2, mapped to the label happy; the mel load yields a one-entry
matrix. -/
def envHappy : Env ℚ :=
  ⟨some rawM, some rawM, id,
    fun _ => Except.ok [0, 1],
    fun _ => Except.ok [0, 1],
    fun _ => Except.ok [0, 0, 1],
    fun i => if i = 2 then Except.ok "happy" else Except.error "unseen label index"⟩

/-- Environment whose gender model always answers class 0 (female). -/
def envFemale : Env ℚ :=
  ⟨some rawM, some rawM, id,
    fun _ => Except.ok [1, 0],
    fun _ => Except.ok [0, 1],
    fun _ => Except.ok [0, 0, 1],
    fun i => if i = 2 then Except.ok "happy" else Except.error "unseen label index"⟩

/-- Environment whose age model always answers class 0 (non-senior). -/
def envJunior : Env ℚ :=
  ⟨some rawM, some rawM, id,
    fun _ => Except.ok [0, 1],
    fun _ => Except.ok [1, 0],
    fun _ => Except.ok [0, 0, 1],
    fun i => if i = 2 then Except.ok "happy" else Except.error "unseen label index"⟩

/-- Environment in which the first load (and hence mfcc extraction) fails,
as for a non-existent file path. -/
def envNoFile : Env ℚ :=
  ⟨none, none, id,
    fun _ => Except.ok [0, 1],
    fun _ => Except.ok [0, 1],
    fun _ => Except.ok [0, 0, 1],
    fun i => if i = 2 then Except.ok "happy" else Except.error "unseen label index"⟩

/-- Environment in which both gates pass but the second load fails. -/
def envNoMel : Env ℚ :=
  ⟨some rawM, none, id,
    fun _ => Except.ok [0, 1],
    fun _ => Except.ok [0, 1],
    fun _ => Except.ok [0, 0, 1],
    fun i => if i = 2 then Except.ok "happy" else Except.error "unseen label index"⟩

set_option maxRecDepth 40000 in
/-- Witness for C9: the shape part at concrete 13-row and 128-row matrices,
the pipeline part at the environment whose second load fails after both
gates pass. -/
theorem features_all_or_nothing_witness :
    ((List.replicate 13 [(1 : ℚ)]).length = 13 ∧
      (List.replicate 128 [(1 : ℚ)]).length = 128 ∧
      (∀ r ∈ List.replicate 128 [(1 : ℚ)], r.length = shape1 (List.replicate 128 [(1 : ℚ)])) ∧
      extract_mfcc_sequence envNoMel.mfccRaw 160 = some seqM ∧
      envNoMel.gender_predict [seqM] = Except.ok [0, 1] ∧
      np_argmax [(0 : ℚ), 1] = 1 ∧
      envNoMel.age_predict [seqM] = Except.ok [0, 1] ∧
      envNoMel.melRaw = none) ∧
    analyze_audio envNoMel = "❌ Error: Could not extract Mel features." :=
  ⟨⟨by decide, by decide, by decide, by decide, rfl, by decide, rfl, rfl⟩,
    (features_all_or_nothing id (List.replicate 13 [(1 : ℚ)]) (List.replicate 128 [(1 : ℚ)])
      (by decide) (by decide) (by decide) envNoMel).2.2.2.2.2 seqM [0, 1] [0, 1]
      (by decide) rfl (by decide) rfl (by decide) rfl⟩

theorem traced_calls_cases {α : Type} [LinearOrderedField α] (env : Env α) :
    (analyze_audio_traced env).2 = ⟨1, 0, 0⟩ ∨ (analyze_audio_traced env).2 = ⟨1, 1, 0⟩ ∨
      (analyze_audio_traced env).2 = ⟨1, 1, 1⟩ := by
  unfold analyze_audio_traced age_stage_result emotion_stage_result
  repeat' split
  all_goals first
    | exact Or.inl rfl
    | exact Or.inr (Or.inl rfl)
    | exact Or.inr (Or.inr rfl)

theorem emotion_stage_calls {α : Type} [LinearOrderedField α] (env : Env α) :
    (emotion_stage_result env).2.mfcc = 1 ∧ (emotion_stage_result env).2.mel = 1 := by
  unfold emotion_stage_result
  repeat' split
  all_goals exact ⟨rfl, rfl⟩

theorem traced_mel_pos_gates {α : Type} [LinearOrderedField α] (env : Env α)
    (h : (analyze_audio_traced env).2.mel ≠ 0) :
    ∃ X p q, extract_mfcc_sequence env.mfccRaw 160 = some X ∧
      env.gender_predict [X] = Except.ok p ∧ np_argmax p = 1 ∧
      env.age_predict [X] = Except.ok q ∧ np_argmax q = 1 := by
  cases hX : extract_mfcc_sequence env.mfccRaw 160 with
  | none =>
    rw [traced_of_mfcc_none env hX] at h
    simp at h
  | some X =>
    cases hp : env.gender_predict [X] with
    | error e =>
      rw [traced_of_gender_error env X e hX hp] at h
      simp at h
    | ok p =>
      by_cases h1 : np_argmax p = 1
      · rw [traced_of_male env X p hX hp h1] at h
        cases hq : env.age_predict [X] with
        | error e =>
          rw [age_stage_of_error env [X] e hq] at h
          simp at h
        | ok q =>
          by_cases h2 : np_argmax q = 1
          · exact ⟨X, p, q, rfl, hp, h1, hq, h2⟩
          · rw [age_stage_of_not_senior env [X] q hq h2] at h
            simp at h
      · rw [traced_of_female env X p hX hp h1] at h
        simp at h

/-- C3: the spectrogram extraction is invoked at most once per invocation,
the emotion classifier at most as often as the spectrogram extraction, the
spectrogram extraction is invoked only when the gender stage decided male
and the age stage decided senior, and a female or non-senior decision leaves
both invocation counters at zero. -/
theorem spectrogram_computed_lazily {α : Type} [LinearOrderedField α] (env : Env α) :
    (analyze_audio_traced env).2.mel ≤ 1 ∧
    (analyze_audio_traced env).2.emotion ≤ (analyze_audio_traced env).2.mel ∧
    ((analyze_audio_traced env).2.mel = 1 →
      ∃ X p q, extract_mfcc_sequence env.mfccRaw 160 = some X ∧
        env.gender_predict [X] = Except.ok p ∧ np_argmax p = 1 ∧
        env.age_predict [X] = Except.ok q ∧ np_argmax q = 1) ∧
    (∀ X p, extract_mfcc_sequence env.mfccRaw 160 = some X →
      env.gender_predict [X] = Except.ok p → np_argmax p ≠ 1 →
      (analyze_audio_traced env).2.mel = 0 ∧ (analyze_audio_traced env).2.emotion = 0) ∧
    (∀ X p q, extract_mfcc_sequence env.mfccRaw 160 = some X →
      env.gender_predict [X] = Except.ok p → np_argmax p = 1 →
      env.age_predict [X] = Except.ok q → np_argmax q ≠ 1 →
      (analyze_audio_traced env).2.mel = 0 ∧ (analyze_audio_traced env).2.emotion = 0) := by
  refine ⟨?_, ?_, ?_, ?_, ?_⟩
  · rcases traced_calls_cases env with h | h | h <;> rw [h] <;> decide
  · rcases traced_calls_cases env with h | h | h <;> rw [h] <;> decide
  · intro h
    exact traced_mel_pos_gates env (by rw [h]; decide)
  · intro X p hX hp h1
    rw [traced_of_female env X p hX hp h1]
    exact ⟨rfl, rfl⟩
  · intro X p q hX hp h1 hq h2
    rw [traced_of_male env X p hX hp h1, age_stage_of_not_senior env [X] q hq h2]
    exact ⟨rfl, rfl⟩

set_option maxRecDepth 40000 in
/-- Witness for C3 at the environment whose gender model answers class 0:
the spectrogram extraction and the emotion classifier are never invoked. -/
theorem spectrogram_computed_lazily_witness :
    (extract_mfcc_sequence envFemale.mfccRaw 160 = some seqM ∧
      envFemale.gender_predict [seqM] = Except.ok [1, 0] ∧
      np_argmax [(1 : ℚ), 0] ≠ 1) ∧
    ((analyze_audio_traced envFemale).2.mel = 0 ∧
      (analyze_audio_traced envFemale).2.emotion = 0) :=
  ⟨⟨by decide, rfl, by decide⟩,
    (spectrogram_computed_lazily envFemale).2.2.2.1 seqM [1, 0] (by decide) rfl (by decide)⟩

/-- C4: whenever the arg-max of the gender distribution is not 1 the
pipeline terminates with the female rejection string, and whenever it is 1
the pipeline continues with the age stage on the same invocation. -/
theorem gender_gate {α : Type} [LinearOrderedField α] (env : Env α) (X : Mat α) (p : List α)
    (hX : extract_mfcc_sequence env.mfccRaw 160 = some X)
    (hp : env.gender_predict [X] = Except.ok p) :
    (np_argmax p ≠ 1 → analyze_audio env = "🚫 Rejected: Female voice detected.") ∧
    (np_argmax p = 1 → analyze_audio env = (age_stage_result env [X]).1) := by
  constructor
  · intro h1
    unfold analyze_audio
    rw [traced_of_female env X p hX hp h1]
  · intro h1
    unfold analyze_audio
    rw [traced_of_male env X p hX hp h1]

set_option maxRecDepth 40000 in
/-- Witness for C4 at the environment whose gender model always answers
class 0 (female): the result is the female rejection string. -/
theorem gender_gate_witness :
    (extract_mfcc_sequence envFemale.mfccRaw 160 = some seqM ∧
      envFemale.gender_predict [seqM] = Except.ok [1, 0] ∧
      np_argmax [(1 : ℚ), 0] ≠ 1) ∧
    analyze_audio envFemale = "🚫 Rejected: Female voice detected." :=
  ⟨⟨by decide, rfl, by decide⟩,
    (gender_gate envFemale seqM [1, 0] (by decide) rfl).1 (by decide)⟩

/-- C5: the mfcc extraction is performed exactly once per invocation, and
after a male decision the age classifier runs on the very same coefficient
tensor the gender classifier received; a non-senior arg-max terminates with
the senior rejection string and a senior arg-max continues with the emotion
stage. -/
theorem age_stage_same_tensor {α : Type} [LinearOrderedField α] (env : Env α) :
    (analyze_audio_traced env).2.mfcc = 1 ∧
    (∀ X p, extract_mfcc_sequence env.mfccRaw 160 = some X →
      env.gender_predict [X] = Except.ok p → np_argmax p = 1 →
      analyze_audio env = (age_stage_result env [X]).1 ∧
      (∀ q, env.age_predict [X] = Except.ok q →
        (np_argmax q ≠ 1 → analyze_audio env = "🚫 Rejected: Not a senior (under 60).") ∧
        (np_argmax q = 1 → analyze_audio env = (emotion_stage_result env).1))) := by
  constructor
  · rcases traced_calls_cases env with h | h | h <;> rw [h]
  · intro X p hX hp h1
    constructor
    · unfold analyze_audio
      rw [traced_of_male env X p hX hp h1]
    · intro q hq
      constructor
      · intro h2
        unfold analyze_audio
        rw [traced_of_male env X p hX hp h1, age_stage_of_not_senior env [X] q hq h2]
      · intro h2
        unfold analyze_audio
        rw [traced_of_male env X p hX hp h1, age_stage_of_senior env [X] q hq h2]

set_option maxRecDepth 40000 in
/-- Witness for C5 at the environment whose age model answers class 0 after
a male gender decision: the result is the senior rejection string. -/
theorem age_stage_same_tensor_witness :
    (extract_mfcc_sequence envJunior.mfccRaw 160 = some seqM ∧
      envJunior.gender_predict [seqM] = Except.ok [0, 1] ∧
      np_argmax [(0 : ℚ), 1] = 1 ∧
      envJunior.age_predict [seqM] = Except.ok [1, 0] ∧
      np_argmax [(1 : ℚ), 0] ≠ 1) ∧
    analyze_audio envJunior = "🚫 Rejected: Not a senior (under 60)." :=
  ⟨⟨by decide, rfl, by decide, rfl, by decide⟩,
    (((age_stage_same_tensor envJunior).2 seqM [0, 1] (by decide) rfl (by decide)).2
      [1, 0] rfl).1 (by decide)⟩

/-- C6: when the gender arg-max is 1, the age arg-max is 1, the spectrogram
extraction succeeds, the emotion model answers, and the label encoder maps
the emotion arg-max index to a name, `analyze_audio` returns the detected
string carrying exactly that name. -/
theorem emotion_labeling {α : Type} [LinearOrderedField α] (env : Env α)
    (X : Mat α) (p q : List α) (T : Mat3 α) (ep : List α) (label : String)
    (hX : extract_mfcc_sequence env.mfccRaw 160 = some X)
    (hp : env.gender_predict [X] = Except.ok p) (hp1 : np_argmax p = 1)
    (hq : env.age_predict [X] = Except.ok q) (hq1 : np_argmax q = 1)
    (hT : extract_mel_features env.log10 env.melRaw 160 = some T)
    (hep : env.emotion_predict [T] = Except.ok ep)
    (hl : env.inverse_transform (np_argmax ep) = Except.ok label) :
    analyze_audio env = "✅ Detected Emotion: " ++ label := by
  unfold analyze_audio
  rw [traced_of_male env X p hX hp hp1, age_stage_of_senior env [X] q hq hq1,
    emotion_stage_of_label_ok env T ep label hT hep hl]

set_option maxRecDepth 40000 in
/-- Witness for C6 at the environment whose models answer male, then senior,
then emotion class 2, with the label table mapping 2 to happy. -/
theorem emotion_labeling_witness :
    (extract_mfcc_sequence envHappy.mfccRaw 160 = some seqM ∧
      envHappy.gender_predict [seqM] = Except.ok [0, 1] ∧
      np_argmax [(0 : ℚ), 1] = 1 ∧
      envHappy.age_predict [seqM] = Except.ok [0, 1] ∧
      extract_mel_features envHappy.log10 envHappy.melRaw 160 =
        some (addChannel (pad_or_truncate 160 (power_to_db id rawM))) ∧
      envHappy.emotion_predict [addChannel (pad_or_truncate 160 (power_to_db id rawM))] =
        Except.ok [0, 0, 1] ∧
      np_argmax [(0 : ℚ), 0, 1] = 2 ∧
      envHappy.inverse_transform 2 = Except.ok "happy") ∧
    analyze_audio envHappy = "✅ Detected Emotion: " ++ "happy" :=
  ⟨⟨by decide, rfl, by decide, rfl, rfl, rfl, by decide, rfl⟩,
    emotion_labeling envHappy seqM [0, 1] [0, 1]
      (addChannel (pad_or_truncate 160 (power_to_db id rawM))) [0, 0, 1] "happy"
      (by decide) rfl (by decide) rfl (by decide) rfl rfl rfl⟩

/-- C8: every invocation of the pipeline produces a result string of one of
the three terminal shapes (error, rejection, detection) — never an uncaught
fault — and every internal failure kind is converted into an Error result:
a failed first decode, as for a non-existent file path, yields exactly the
mfcc error string; a gender, age or emotion model exception and a label
lookup exception each yield exactly the error string carrying the exception
text; and a failed second decode after both gates pass yields exactly the
mel error string. -/
theorem pipeline_total_error_handling {α : Type} [LinearOrderedField α] (env : Env α) :
    ((∃ m, analyze_audio env = "❌ Error: " ++ m) ∨
      (∃ r, analyze_audio env = "🚫 Rejected: " ++ r) ∨
      (∃ l, analyze_audio env = "✅ Detected Emotion: " ++ l)) ∧
    (env.mfccRaw = none → analyze_audio env = "❌ Error: Could not extract MFCC sequence.") ∧
    (∀ X e, extract_mfcc_sequence env.mfccRaw 160 = some X →
      env.gender_predict [X] = Except.error e →
      analyze_audio env = "❌ Error: " ++ e) ∧
    (∀ X p e, extract_mfcc_sequence env.mfccRaw 160 = some X →
      env.gender_predict [X] = Except.ok p → np_argmax p = 1 →
      env.age_predict [X] = Except.error e →
      analyze_audio env = "❌ Error: " ++ e) ∧
    (∀ X p q, extract_mfcc_sequence env.mfccRaw 160 = some X →
      env.gender_predict [X] = Except.ok p → np_argmax p = 1 →
      env.age_predict [X] = Except.ok q → np_argmax q = 1 →
      env.melRaw = none →
      analyze_audio env = "❌ Error: Could not extract Mel features.") ∧
    (∀ X p q T e, extract_mfcc_sequence env.mfccRaw 160 = some X →
      env.gender_predict [X] = Except.ok p → np_argmax p = 1 →
      env.age_predict [X] = Except.ok q → np_argmax q = 1 →
      extract_mel_features env.log10 env.melRaw 160 = some T →
      env.emotion_predict [T] = Except.error e →
      analyze_audio env = "❌ Error: " ++ e) ∧
    (∀ X p q T ep e, extract_mfcc_sequence env.mfccRaw 160 = some X →
      env.gender_predict [X] = Except.ok p → np_argmax p = 1 →
      env.age_predict [X] = Except.ok q → np_argmax q = 1 →
      extract_mel_features env.log10 env.melRaw 160 = some T →
      env.emotion_predict [T] = Except.ok ep →
      env.inverse_transform (np_argmax ep) = Except.error e →
      analyze_audio env = "❌ Error: " ++ e) := by
  refine ⟨?_, ?_, ?_, ?_, ?_, ?_, ?_⟩
  · cases hX : extract_mfcc_sequence env.mfccRaw 160 with
    | none =>
      refine Or.inl ⟨"Could not extract MFCC sequence.", ?_⟩
      unfold analyze_audio
      rw [traced_of_mfcc_none env hX]
      decide
    | some X =>
      cases hp : env.gender_predict [X] with
      | error e =>
        refine Or.inl ⟨e, ?_⟩
        unfold analyze_audio
        rw [traced_of_gender_error env X e hX hp]
      | ok p =>
        by_cases h1 : np_argmax p = 1
        · cases hq : env.age_predict [X] with
          | error e =>
            refine Or.inl ⟨e, ?_⟩
            unfold analyze_audio
            rw [traced_of_male env X p hX hp h1, age_stage_of_error env [X] e hq]
          | ok q =>
            by_cases h2 : np_argmax q = 1
            · cases hT : extract_mel_features env.log10 env.melRaw 160 with
              | none =>
                refine Or.inl ⟨"Could not extract Mel features.", ?_⟩
                unfold analyze_audio
                rw [traced_of_male env X p hX hp h1, age_stage_of_senior env [X] q hq h2,
                  emotion_stage_of_mel_none env hT]
                decide
              | some T =>
                cases hep : env.emotion_predict [T] with
                | error e =>
                  refine Or.inl ⟨e, ?_⟩
                  unfold analyze_audio
                  rw [traced_of_male env X p hX hp h1, age_stage_of_senior env [X] q hq h2,
                    emotion_stage_of_predict_error env T e hT hep]
                | ok ep =>
                  cases hl : env.inverse_transform (np_argmax ep) with
                  | error e =>
                    refine Or.inl ⟨e, ?_⟩
                    unfold analyze_audio
                    rw [traced_of_male env X p hX hp h1, age_stage_of_senior env [X] q hq h2,
                      emotion_stage_of_label_error env T ep e hT hep hl]
                  | ok label =>
                    refine Or.inr (Or.inr ⟨label, ?_⟩)
                    unfold analyze_audio
                    rw [traced_of_male env X p hX hp h1, age_stage_of_senior env [X] q hq h2,
                      emotion_stage_of_label_ok env T ep label hT hep hl]
            · refine Or.inr (Or.inl ⟨"Not a senior (under 60).", ?_⟩)
              unfold analyze_audio
              rw [traced_of_male env X p hX hp h1, age_stage_of_not_senior env [X] q hq h2]
              decide
        · refine Or.inr (Or.inl ⟨"Female voice detected.", ?_⟩)
          unfold analyze_audio
          rw [traced_of_female env X p hX hp h1]
          decide
  · intro h
    unfold analyze_audio
    rw [traced_of_mfcc_none env (by rw [h]; rfl)]
  · intro X e hX he
    unfold analyze_audio
    rw [traced_of_gender_error env X e hX he]
  · intro X p e hX hp hp1 he
    unfold analyze_audio
    rw [traced_of_male env X p hX hp hp1, age_stage_of_error env [X] e he]
  · intro X p q hX hp hp1 hq hq1 hmel
    unfold analyze_audio
    rw [traced_of_male env X p hX hp hp1, age_stage_of_senior env [X] q hq hq1,
      emotion_stage_of_mel_none env (by rw [hmel]; rfl)]
  · intro X p q T e hX hp hp1 hq hq1 hT he
    unfold analyze_audio
    rw [traced_of_male env X p hX hp hp1, age_stage_of_senior env [X] q hq hq1,
      emotion_stage_of_predict_error env T e hT he]
  · intro X p q T ep e hX hp hp1 hq hq1 hT hep hl
    unfold analyze_audio
    rw [traced_of_male env X p hX hp hp1, age_stage_of_senior env [X] q hq hq1,
      emotion_stage_of_label_error env T ep e hT hep hl]

/-- Environment in which both gates pass, the second decode and the emotion
model succeed, but the label encoder raises on the resulting index. -/
def envLabelFail : Env ℚ :=
  ⟨some rawM, some rawM, id,
    fun _ => Except.ok [0, 1],
    fun _ => Except.ok [0, 1],
    fun _ => Except.ok [1, 0],
    fun _ => Except.error "unseen label index"⟩

set_option maxRecDepth 40000 in
/-- Witness for C8: a failed first decode yields exactly the mfcc error
string, and a label-encoder failure after every stage passed yields exactly
the error string carrying the exception text, not a rejection. -/
theorem pipeline_total_error_handling_witness :
    (envNoFile.mfccRaw = none ∧
      analyze_audio envNoFile = "❌ Error: Could not extract MFCC sequence.") ∧
    ((extract_mfcc_sequence envLabelFail.mfccRaw 160 = some seqM ∧
      envLabelFail.gender_predict [seqM] = Except.ok [0, 1] ∧
      np_argmax [(0 : ℚ), 1] = 1 ∧
      envLabelFail.age_predict [seqM] = Except.ok [0, 1] ∧
      extract_mel_features envLabelFail.log10 envLabelFail.melRaw 160 =
        some (addChannel (pad_or_truncate 160 (power_to_db id rawM))) ∧
      envLabelFail.emotion_predict [addChannel (pad_or_truncate 160 (power_to_db id rawM))] =
        Except.ok [1, 0] ∧
      envLabelFail.inverse_transform (np_argmax [(1 : ℚ), 0]) =
        Except.error "unseen label index") ∧
      analyze_audio envLabelFail = "❌ Error: " ++ "unseen label index") :=
  ⟨⟨rfl, (pipeline_total_error_handling envNoFile).2.1 rfl⟩,
    ⟨⟨by decide, rfl, by decide, rfl, rfl, rfl, rfl⟩,
      (pipeline_total_error_handling envLabelFail).2.2.2.2.2.2 seqM [0, 1] [0, 1]
        (addChannel (pad_or_truncate 160 (power_to_db id rawM))) [1, 0] "unseen label index"
        (by decide) rfl (by decide) rfl (by decide) rfl rfl rfl⟩⟩

/-- Mel power matrix left by one possible second load of the file. -/
def melA : Mat ℚ := [[1, 1]]

/-- Mel power matrix left by a different second load of the same path. -/
def melB : Mat ℚ := [[1, 2]]

theorem power_to_db_melA : power_to_db id melA = [[0, 0]] := by
  have habs : matAbs melA = [[1, 1]] := by
    simp [matAbs, matMap, melA]
  have hdb : db_entry id (1 : ℚ) 1 = 0 := by
    simp [db_entry]
  unfold power_to_db
  rw [habs]
  rw [show matMax [[(1 : ℚ), 1]] = 1 from by simp [matMax, np_max]]
  rw [show matMap (db_entry id (1 : ℚ)) [[1, 1]] = [[0, 0]] from by simp [matMap, hdb]]
  unfold clampTop
  rw [show matMax [[(0 : ℚ), 0]] = 0 from by simp [matMax, np_max]]
  unfold matMap
  simp only [List.map_cons, List.map_nil]
  rw [max_eq_left (by norm_num : (0 : ℚ) - 80 ≤ 0)]

theorem power_to_db_melB : power_to_db id melB = [[-10, 0]] := by
  have habs : matAbs melB = [[1, 2]] := by
    simp [matAbs, matMap, melB]
  have hdb1 : db_entry id (2 : ℚ) 1 = -10 := by
    unfold db_entry np_amin
    rw [max_eq_right (by norm_num : (1 : ℚ) / 10 ^ 10 ≤ 1),
      max_eq_right (by norm_num : (1 : ℚ) / 10 ^ 10 ≤ 2)]
    norm_num
  have hdb2 : db_entry id (2 : ℚ) 2 = 0 := by
    simp [db_entry]
  have href : matMax [[(1 : ℚ), 2]] = 2 := by
    unfold matMax
    rw [show ([[(1 : ℚ), 2]] : Mat ℚ).flatten = [1, 2] from by simp]
    rw [np_max_cons 1 [2] (by simp), show np_max [(2 : ℚ)] = 2 from rfl]
    exact max_eq_right (by norm_num)
  have hm : matMax [[(-10 : ℚ), 0]] = 0 := by
    unfold matMax
    rw [show ([[(-10 : ℚ), 0]] : Mat ℚ).flatten = [-10, 0] from by simp]
    rw [np_max_cons (-10) [0] (by simp), show np_max [(0 : ℚ)] = 0 from rfl]
    exact max_eq_right (by norm_num)
  unfold power_to_db
  rw [habs, href]
  rw [show matMap (db_entry id (2 : ℚ)) [[1, 2]] = [[-10, 0]] from by simp [matMap, hdb1, hdb2]]
  unfold clampTop
  rw [hm]
  unfold matMap
  simp only [List.map_cons, List.map_nil]
  rw [max_eq_left (by norm_num : (0 : ℚ) - 80 ≤ -10)]
  rw [max_eq_left (by norm_num : (0 : ℚ) - 80 ≤ 0)]

/-- Environment whose second load yields `melA`; the emotion model inspects
the first entry of the spectrogram tensor it receives, so its answer depends
on the second load. -/
def envLoadA : Env ℚ :=
  ⟨some rawM, some melA, id,
    fun _ => Except.ok [0, 1],
    fun _ => Except.ok [0, 1],
    fun t => Except.ok (if ((t.headD []).headD []).headD [] = [(0 : ℚ)] then [1, 0] else [0, 1]),
    fun i => Except.ok (if i = 0 then "calm" else "angry")⟩

/-- The same environment except that the second load of the path yields
`melB`: the first load, the three models and the label table are unchanged. -/
def envLoadB : Env ℚ :=
  ⟨some rawM, some melB, id,
    envLoadA.gender_predict, envLoadA.age_predict,
    envLoadA.emotion_predict, envLoadA.inverse_transform⟩

set_option maxRecDepth 100000 in
/-- C10: in an invocation where both gates pass, the path is decoded twice —
the coefficient tensor comes from the first load (`mfccRaw`) and the
spectrogram tensor from the second, independent load (`melRaw`): the mfcc
extraction and the mel extraction each run exactly once, the terminal stage
is determined by the second load, and two environments that agree on the
first load and on all models but whose second loads differ can both pass the
gates yet produce different detected emotions. -/
theorem spectrogram_from_second_load {α : Type} [LinearOrderedField α] (env : Env α) :
    (∀ X p q, extract_mfcc_sequence env.mfccRaw 160 = some X →
      env.gender_predict [X] = Except.ok p → np_argmax p = 1 →
      env.age_predict [X] = Except.ok q → np_argmax q = 1 →
      analyze_audio env = (emotion_stage_result env).1 ∧
      (analyze_audio_traced env).2.mfcc = 1 ∧
      (analyze_audio_traced env).2.mel = 1) ∧
    (∃ e₁ e₂ : Env ℚ, e₁.mfccRaw = e₂.mfccRaw ∧ e₁.log10 = e₂.log10 ∧
      e₁.gender_predict = e₂.gender_predict ∧ e₁.age_predict = e₂.age_predict ∧
      e₁.emotion_predict = e₂.emotion_predict ∧
      e₁.inverse_transform = e₂.inverse_transform ∧
      e₁.melRaw ≠ e₂.melRaw ∧
      analyze_audio e₁ ≠ analyze_audio e₂) := by
  constructor
  · intro X p q hX hp h1 hq h2
    have ht : analyze_audio_traced env = emotion_stage_result env := by
      rw [traced_of_male env X p hX hp h1, age_stage_of_senior env [X] q hq h2]
    refine ⟨?_, ?_, ?_⟩
    · unfold analyze_audio
      rw [ht]
    · rw [ht]
      exact (emotion_stage_calls env).1
    · rw [ht]
      exact (emotion_stage_calls env).2
  · refine ⟨envLoadA, envLoadB, rfl, rfl, rfl, rfl, rfl, rfl, by decide, ?_⟩
    have hcellA : (((([addChannel (pad_or_truncate 160 (power_to_db id melA))] : List (Mat3 ℚ)).headD
        []).headD []).headD []) = [(0 : ℚ)] := by
      rw [power_to_db_melA]
      simp [pad_or_truncate, shape1, addChannel]
    have hcellB : (((([addChannel (pad_or_truncate 160 (power_to_db id melB))] : List (Mat3 ℚ)).headD
        []).headD []).headD []) = [(-10 : ℚ)] := by
      rw [power_to_db_melB]
      simp [pad_or_truncate, shape1, addChannel]
    have hepA : envLoadA.emotion_predict
        [addChannel (pad_or_truncate 160 (power_to_db id melA))] = Except.ok [1, 0] := by
      show Except.ok (if (((([addChannel (pad_or_truncate 160 (power_to_db id melA))] : List (Mat3 ℚ)).headD
        []).headD []).headD []) = [(0 : ℚ)] then [1, 0] else [0, 1]) = Except.ok [1, 0]
      rw [if_pos hcellA]
    have hepB : envLoadB.emotion_predict
        [addChannel (pad_or_truncate 160 (power_to_db id melB))] = Except.ok [0, 1] := by
      show Except.ok (if (((([addChannel (pad_or_truncate 160 (power_to_db id melB))] :
        List (Mat3 ℚ)).headD []).headD []).headD []) = [(0 : ℚ)] then [1, 0] else [0, 1]) =
        Except.ok [0, 1]
      rw [if_neg (by rw [hcellB]; decide)]
    have hA : analyze_audio envLoadA = "✅ Detected Emotion: " ++ "calm" := by
      unfold analyze_audio
      rw [traced_of_male envLoadA seqM [0, 1] (by decide) rfl (by decide),
        age_stage_of_senior envLoadA [seqM] [0, 1] rfl (by decide),
        emotion_stage_of_label_ok envLoadA
          (addChannel (pad_or_truncate 160 (power_to_db id melA))) [1, 0] "calm"
          rfl hepA (by rw [show np_argmax [(1 : ℚ), 0] = 0 from by decide]; rfl)]
    have hB : analyze_audio envLoadB = "✅ Detected Emotion: " ++ "angry" := by
      unfold analyze_audio
      rw [traced_of_male envLoadB seqM [0, 1] (by decide) rfl (by decide),
        age_stage_of_senior envLoadB [seqM] [0, 1] rfl (by decide),
        emotion_stage_of_label_ok envLoadB
          (addChannel (pad_or_truncate 160 (power_to_db id melB))) [0, 1] "angry"
          rfl hepB (by rw [show np_argmax [(0 : ℚ), 1] = 1 from by decide]; rfl)]
    rw [hA, hB]
    decide

set_option maxRecDepth 40000 in
/-- Witness for C10 at the environment `envLoadA`, where both gates pass. -/
theorem spectrogram_from_second_load_witness :
    (extract_mfcc_sequence envLoadA.mfccRaw 160 = some seqM ∧
      envLoadA.gender_predict [seqM] = Except.ok [0, 1] ∧
      np_argmax [(0 : ℚ), 1] = 1 ∧
      envLoadA.age_predict [seqM] = Except.ok [0, 1]) ∧
    (analyze_audio envLoadA = (emotion_stage_result envLoadA).1 ∧
      (analyze_audio_traced envLoadA).2.mfcc = 1 ∧
      (analyze_audio_traced envLoadA).2.mel = 1) :=
  ⟨⟨by decide, rfl, by decide, rfl⟩,
    (spectrogram_from_second_load envLoadA).1 seqM [0, 1] [0, 1]
      (by decide) rfl (by decide) rfl (by decide)⟩

section MelDbHelpers

theorem flatten_map_map {α β : Type} (f : α → β) (M : Mat α) :
    (M.map (fun r => r.map f)).flatten = M.flatten.map f := by
  induction M with
  | nil => rfl
  | cons r t ih => simp only [List.map_cons, List.flatten_cons, List.map_append, ih]

theorem flatten_matMap {α : Type} (f : α → α) (M : Mat α) :
    (matMap f M).flatten = M.flatten.map f :=
  flatten_map_map f M

theorem flatten_flatten_addChannel {α : Type} (M : Mat α) :
    (addChannel M).flatten.flatten = M.flatten := by
  unfold addChannel
  rw [flatten_map_map (fun x => [x]) M, flatten_map_singleton]

theorem take_length_append {α : Type} (l₁ l₂ : List α) :
    (l₁ ++ l₂).take l₁.length = l₁ := by
  induction l₁ with
  | nil => rfl
  | cons x t ih => simp [ih]

theorem flatten_replicate_replicate {α : Type} (n m : ℕ) (a : α) :
    (List.replicate n (List.replicate m a)).flatten = List.replicate (n * m) a := by
  induction n with
  | zero => simp
  | succ k ih =>
    rw [List.replicate_succ, List.flatten_cons, ih, ← List.replicate_add]
    congr 1
    ring

theorem np_max_replicate {α : Type} [LinearOrderedField α] (n : ℕ) (a : α) (h : n ≠ 0) :
    np_max (List.replicate n a) = a :=
  np_max_eq_of_mem_of_le (List.mem_replicate.mpr ⟨h, rfl⟩)
    (fun _ hx => le_of_eq (List.eq_of_mem_replicate hx))

theorem mem_flatten_pad_or_truncate {α : Type} [LinearOrderedField α] (n : ℕ) (M : Mat α)
    (x : α) (hx : x ∈ (pad_or_truncate n M).flatten) : x ∈ M.flatten ∨ x = 0 := by
  rw [List.mem_flatten] at hx
  obtain ⟨r, hr, hxr⟩ := hx
  unfold pad_or_truncate at hr
  split at hr
  · obtain ⟨s, hs, rfl⟩ := List.mem_map.mp hr
    rcases List.mem_append.mp hxr with h | h
    · exact Or.inl (List.mem_flatten.mpr ⟨s, hs, h⟩)
    · exact Or.inr (List.eq_of_mem_replicate h)
  · obtain ⟨s, hs, rfl⟩ := List.mem_map.mp hr
    exact Or.inl (List.mem_flatten.mpr ⟨s, hs, List.take_subset _ _ hxr⟩)

theorem mem_flatten_pad_or_truncate_of_le {α : Type} [LinearOrderedField α] (M : Mat α)
    (hrect : ∀ r ∈ M, r.length = shape1 M) (hle : shape1 M ≤ 160)
    (x : α) (hx : x ∈ M.flatten) : x ∈ (pad_or_truncate 160 M).flatten := by
  rw [List.mem_flatten] at hx
  obtain ⟨r, hr, hxr⟩ := hx
  unfold pad_or_truncate
  split
  · exact List.mem_flatten.mpr ⟨r ++ List.replicate (160 - shape1 M) 0,
      List.mem_map_of_mem _ hr, List.mem_append_left _ hxr⟩
  · refine List.mem_flatten.mpr ⟨r.take 160, List.mem_map_of_mem _ hr, ?_⟩
    rw [List.take_of_length_le (by rw [hrect r hr]; omega)]
    exact hxr

theorem db_entry_nonpos (y ref : ℝ) (hy : y ≤ ref) :
    db_entry (Real.logb 10) ref y ≤ 0 := by
  unfold db_entry
  have h1 : (0 : ℝ) < max np_amin y :=
    lt_of_lt_of_le (by norm_num [np_amin]) (le_max_left _ _)
  have h2 : max np_amin y ≤ max np_amin ref := max_le_max le_rfl hy
  have h3 := Real.logb_le_logb_of_le (by norm_num : (1 : ℝ) < 10) h1 h2
  linarith

theorem db_layer_nonpos (M : Mat ℝ) :
    ∀ z ∈ (matMap (db_entry (Real.logb 10) (matMax (matAbs M))) (matAbs M)).flatten, z ≤ 0 := by
  intro z hz
  rw [flatten_matMap] at hz
  obtain ⟨y, hy, rfl⟩ := List.mem_map.mp hz
  exact db_entry_nonpos y _ (le_np_max_of_mem hy)

theorem power_to_db_flatten_nonpos (M : Mat ℝ) :
    ∀ x ∈ (power_to_db (Real.logb 10) M).flatten, x ≤ 0 := by
  intro x hx
  unfold power_to_db clampTop at hx
  rw [flatten_matMap] at hx
  obtain ⟨l, hl, rfl⟩ := List.mem_map.mp hx
  have hne : (matMap (db_entry (Real.logb 10) (matMax (matAbs M))) (matAbs M)).flatten ≠ [] :=
    List.ne_nil_of_mem hl
  have hm0 : matMax (matMap (db_entry (Real.logb 10) (matMax (matAbs M))) (matAbs M)) ≤ 0 :=
    db_layer_nonpos M _ (np_max_mem _ hne)
  exact max_le (db_layer_nonpos M l hl) (by linarith)

theorem zero_mem_power_to_db (M : Mat ℝ) (h : M.flatten ≠ []) :
    (0 : ℝ) ∈ (power_to_db (Real.logb 10) M).flatten := by
  have habsne : (matAbs M).flatten ≠ [] := by
    unfold matAbs
    rw [flatten_matMap]
    simpa using h
  have hrefmem : matMax (matAbs M) ∈ (matAbs M).flatten := np_max_mem _ habsne
  have hdb0 : db_entry (Real.logb 10) (matMax (matAbs M)) (matMax (matAbs M)) = 0 := by
    unfold db_entry
    ring
  have h0L : (0 : ℝ) ∈
      (matMap (db_entry (Real.logb 10) (matMax (matAbs M))) (matAbs M)).flatten := by
    rw [flatten_matMap, ← hdb0]
    exact List.mem_map_of_mem _ hrefmem
  have hm0 : matMax (matMap (db_entry (Real.logb 10) (matMax (matAbs M))) (matAbs M)) ≤ 0 :=
    db_layer_nonpos M _ (np_max_mem _ (List.ne_nil_of_mem h0L))
  have hclamp : max (0 : ℝ)
      (matMax (matMap (db_entry (Real.logb 10) (matMax (matAbs M))) (matAbs M)) - 80) = 0 :=
    max_eq_left (by linarith)
  unfold power_to_db clampTop
  rw [flatten_matMap, ← hclamp]
  exact List.mem_map_of_mem _ h0L

end MelDbHelpers

/-- C7 (amended): for every signal whose mel computation succeeds with a
nonempty rectangular mel power matrix, every entry of the tensor returned by
`extract_mel_features` with the real base-10 logarithm is at most 0, and the
maximum entry is exactly 0 whenever the signal yields at most 160 analysis
frames; for longer signals the maximum can drop below 0 because the
truncation to the first 160 frames may discard the 0 dB reference peak. -/
theorem mel_db_entries_nonpos_max_zero (M : Mat ℝ) (hM : M ≠ [])
    (h1 : 1 ≤ shape1 M) (hrect : ∀ r ∈ M, r.length = shape1 M)
    (res : Mat3 ℝ) (hres : extract_mel_features (Real.logb 10) (some M) 160 = some res) :
    (∀ x ∈ res.flatten.flatten, x ≤ 0) ∧
    (shape1 M ≤ 160 → mat3Max res = 0) := by
  have hres' : res = addChannel (pad_or_truncate 160 (power_to_db (Real.logb 10) M)) := by
    injection hres with h
    exact h.symm
  subst hres'
  have hE : (addChannel (pad_or_truncate 160 (power_to_db (Real.logb 10) M))).flatten.flatten
      = (pad_or_truncate 160 (power_to_db (Real.logb 10) M)).flatten :=
    flatten_flatten_addChannel _
  constructor
  · intro x hx
    rw [hE] at hx
    rcases mem_flatten_pad_or_truncate 160 _ x hx with h | h
    · exact power_to_db_flatten_nonpos M x h
    · rw [h]
  · intro hle
    unfold mat3Max
    rw [hE]
    have hMflat : M.flatten ≠ [] := by
      obtain ⟨r, t, rfl⟩ := List.exists_cons_of_ne_nil hM
      cases r with
      | nil => simp [shape1] at h1
      | cons a s => simp
    have h0P : (0 : ℝ) ∈ (pad_or_truncate 160 (power_to_db (Real.logb 10) M)).flatten := by
      apply mem_flatten_pad_or_truncate_of_le
      · exact rect_power_to_db (Real.logb 10) M hrect
      · rw [shape1_power_to_db]
        exact hle
      · exact zero_mem_power_to_db M hMflat
    refine np_max_eq_of_mem_of_le h0P ?_
    intro x hx
    rcases mem_flatten_pad_or_truncate 160 _ x hx with h | h
    · exact power_to_db_flatten_nonpos M x h
    · rw [h]

/-- Witness for the amended C7 at the one-band, one-frame mel power matrix. -/
theorem mel_db_entries_nonpos_max_zero_witness :
    (([[(1 : ℝ)]] : Mat ℝ) ≠ [] ∧ 1 ≤ shape1 ([[(1 : ℝ)]] : Mat ℝ) ∧
      (∀ r ∈ ([[(1 : ℝ)]] : Mat ℝ), r.length = shape1 ([[(1 : ℝ)]] : Mat ℝ))) ∧
    ((∀ x ∈ (addChannel (pad_or_truncate 160
        (power_to_db (Real.logb 10) [[1]]))).flatten.flatten, x ≤ 0) ∧
      (shape1 ([[(1 : ℝ)]] : Mat ℝ) ≤ 160 →
        mat3Max (addChannel (pad_or_truncate 160 (power_to_db (Real.logb 10) [[1]]))) = 0)) :=
  ⟨⟨by simp, by simp [shape1], by simp [shape1]⟩,
    mel_db_entries_nonpos_max_zero [[1]] (by simp) (by simp [shape1]) (by simp [shape1])
      (addChannel (pad_or_truncate 160 (power_to_db (Real.logb 10) [[1]]))) rfl⟩

/-- Mel power matrix of a long signal whose only power peak lies in frame
161, beyond the 160 retained frames: 128 identical bands with 160 frames of
power 1 followed by one frame of power 100. -/
def cexMel : Mat ℝ := List.replicate 128 (List.replicate 160 1 ++ [100])

theorem logb_ten_hundred : Real.logb 10 100 = 2 := by
  rw [show (100 : ℝ) = 10 ^ (2 : ℕ) from by norm_num, Real.logb_pow,
    Real.logb_self_eq_one (by norm_num)]
  norm_num

theorem power_to_db_cexMel :
    power_to_db (Real.logb 10) cexMel
      = List.replicate 128 (List.replicate 160 (-20 : ℝ) ++ [0]) := by
  have h100 : |(100 : ℝ)| = 100 := abs_of_pos (by norm_num)
  have habs : matAbs cexMel = cexMel := by
    unfold matAbs matMap cexMel
    simp only [List.map_replicate, List.map_append, List.map_cons, List.map_nil, abs_one, h100]
  have hrefmem : (100 : ℝ) ∈ cexMel.flatten :=
    List.mem_flatten.mpr ⟨List.replicate 160 1 ++ [100],
      List.mem_replicate.mpr ⟨by norm_num, rfl⟩,
      List.mem_append_right _ (List.mem_singleton.mpr rfl)⟩
  have hrefbound : ∀ x ∈ cexMel.flatten, x ≤ 100 := by
    intro x hx
    rw [List.mem_flatten] at hx
    obtain ⟨r, hr, hxr⟩ := hx
    have hr2 : r ∈ List.replicate 128 (List.replicate 160 (1 : ℝ) ++ [100]) := hr
    rw [List.eq_of_mem_replicate hr2] at hxr
    rcases List.mem_append.mp hxr with h | h
    · rw [List.eq_of_mem_replicate h]
      norm_num
    · exact le_of_eq (List.mem_singleton.mp h)
  have href : matMax cexMel = 100 := by
    unfold matMax
    exact np_max_eq_of_mem_of_le hrefmem hrefbound
  have hv1 : db_entry (Real.logb 10) 100 (1 : ℝ) = -20 := by
    unfold db_entry np_amin
    rw [max_eq_right (by norm_num : (1 : ℝ) / 10 ^ 10 ≤ 1),
      max_eq_right (by norm_num : (1 : ℝ) / 10 ^ 10 ≤ 100),
      Real.logb_one, logb_ten_hundred]
    norm_num
  have hv100 : db_entry (Real.logb 10) 100 (100 : ℝ) = 0 := by
    unfold db_entry
    ring
  have hL : matMap (db_entry (Real.logb 10) 100) cexMel
      = List.replicate 128 (List.replicate 160 (-20 : ℝ) ++ [0]) := by
    unfold matMap cexMel
    simp only [List.map_replicate, List.map_append, List.map_cons, List.map_nil, hv1, hv100]
  have hm : matMax (List.replicate 128 (List.replicate 160 (-20 : ℝ) ++ [0])) = 0 := by
    unfold matMax
    apply np_max_eq_of_mem_of_le
    · exact List.mem_flatten.mpr ⟨List.replicate 160 (-20) ++ [0],
        List.mem_replicate.mpr ⟨by norm_num, rfl⟩,
        List.mem_append_right _ (List.mem_singleton.mpr rfl)⟩
    · intro x hx
      rw [List.mem_flatten] at hx
      obtain ⟨r, hr, hxr⟩ := hx
      rw [List.eq_of_mem_replicate hr] at hxr
      rcases List.mem_append.mp hxr with h | h
      · rw [List.eq_of_mem_replicate h]
        norm_num
      · exact le_of_eq (List.mem_singleton.mp h)
  unfold power_to_db
  rw [habs, href, hL]
  unfold clampTop
  rw [hm]
  have hc1 : max (-20 : ℝ) (0 - 80) = -20 := max_eq_left (by norm_num)
  have hc2 : max (0 : ℝ) (0 - 80) = 0 := max_eq_left (by norm_num)
  unfold matMap
  simp only [List.map_replicate, List.map_append, List.map_cons, List.map_nil, hc1, hc2]

theorem pad_cexDb :
    pad_or_truncate 160 (List.replicate 128 (List.replicate 160 (-20 : ℝ) ++ [0]))
      = List.replicate 128 (List.replicate 160 (-20 : ℝ)) := by
  have hsh : shape1 (List.replicate 128 (List.replicate 160 (-20 : ℝ) ++ [0])) = 161 := by
    rw [show (128 : ℕ) = 127 + 1 from rfl, List.replicate_succ]
    simp only [shape1, List.length_append, List.length_replicate, List.length_cons,
      List.length_nil]
  have htake : (List.replicate 160 (-20 : ℝ) ++ [0]).take 160 = List.replicate 160 (-20 : ℝ) := by
    rw [show (160 : ℕ) = (List.replicate 160 (-20 : ℝ)).length from by simp]
    exact take_length_append _ _
  unfold pad_or_truncate
  rw [hsh, if_neg (by omega)]
  simp only [List.map_replicate, htake]

/-- Counterexample to C7 as stated: the 128-band mel power matrix of a long
signal whose only power peak lies in frame 161 is a valid rectangular input,
yet the tensor `extract_mel_features` returns for it has maximum -20, not 0
— truncation to the first 160 frames drops the 0 dB reference peak. -/
theorem mel_db_max_counterexample :
    cexMel.length = 128 ∧ (∀ r ∈ cexMel, r.length = shape1 cexMel) ∧
    160 < shape1 cexMel ∧
    ∃ res, extract_mel_features (Real.logb 10) (some cexMel) 160 = some res ∧
      mat3Max res = -20 ∧ mat3Max res ≠ 0 := by
  have hsh : shape1 cexMel = 161 := by
    unfold cexMel
    rw [show (128 : ℕ) = 127 + 1 from rfl, List.replicate_succ]
    simp only [shape1, List.length_append, List.length_replicate, List.length_cons,
      List.length_nil]
  have hmax : mat3Max (addChannel (pad_or_truncate 160
      (power_to_db (Real.logb 10) cexMel))) = -20 := by
    rw [power_to_db_cexMel, pad_cexDb]
    unfold mat3Max
    rw [show addChannel (List.replicate 128 (List.replicate 160 (-20 : ℝ)))
        = List.replicate 128 (List.replicate 160 [(-20 : ℝ)]) from by
      unfold addChannel
      simp only [List.map_replicate]]
    rw [flatten_replicate_replicate]
    rw [show List.replicate (128 * 160) [(-20 : ℝ)]
        = List.replicate (128 * 160) (List.replicate 1 (-20 : ℝ)) from rfl]
    rw [flatten_replicate_replicate]
    exact np_max_replicate _ _ (by norm_num)
  refine ⟨by unfold cexMel; rw [List.length_replicate], ?_, by omega, ?_⟩
  · intro r hr
    have hr2 : r ∈ List.replicate 128 (List.replicate 160 (1 : ℝ) ++ [100]) := hr
    rw [List.eq_of_mem_replicate hr2, hsh]
    simp only [List.length_append, List.length_replicate, List.length_cons, List.length_nil]
  · exact ⟨addChannel (pad_or_truncate 160 (power_to_db (Real.logb 10) cexMel)), rfl,
      hmax, by rw [hmax]; norm_num⟩
